import Mathlib

/-!
Shallow embedding of the SolActStream polling activity-detection engine.

The repository contains two variants of the `SolActStream` class:
* variant 0 (file `src/unnamed/part_000`): `subscribe` / `unsubscribe` /
  `startPolling` / `stopPolling` / `checkAddressActivities` with the
  three-tier balance-delta fallback chain;
* variant 1 (file `src/unnamed/part_001`): `watchAddress` with address
  validation, a simpler `checkAddressActivities` over parsed transactions,
  and `startPolling` with bounded reconnection.

Remote-node calls are embedded as `Except Unit` values supplied by an
oracle (`NodeResponse`): `.error ()` models the RPC call throwing.
Lamport amounts are naturals; SOL amounts (lamports / 1e9) are rationals,
so the arithmetic of the source is exact here.  Timers are modelled by a
boolean handle (`pollingInterval`, whether `this.pollingInterval` is
non-null) together with a counter `liveTimers` of interval timers actually
running: `setInterval` increments the counter, `clearInterval` on a live
handle decrements it; overwriting a non-null handle leaks its timer.
-/

/-- Entry of the list returned by `getSignaturesForAddress`. -/
structure SignatureInfo where
  signature : String
  slot : Nat
  blockTime : Option Int
  err : Bool
deriving DecidableEq, Repr, Inhabited

/-- The parts of a `getTransaction` response that `checkAddressActivities`
reads: static account keys, pre/post lamport balances and the fee.
`tx && tx.meta && tx.transaction.message` holding is modelled by the
response being `some` of this structure. -/
structure TxDetail where
  accountKeys : List String
  preBalances : List Nat
  postBalances : List Nat
  fee : Nat
deriving DecidableEq, Repr, Inhabited

/-- The remote-node responses one address can receive during one tick.
`.error ()` models the corresponding RPC call throwing. -/
structure NodeResponse where
  signatures : Except Unit (List SignatureInfo)
  transactionDetail : Except Unit (Option TxDetail)
  balance : Except Unit Nat
deriving Inhabited

/-- The `data` payload of an emitted event (part_000, lines 125-130 and the
fields added by the fallback tiers).  A field the source never assigns is
`none`. -/
structure EventData where
  amount : ℚ
  slot : Nat
  fee : ℚ
  status : String
  balanceChange : Option ℚ
  previousBalance : Option ℚ
  newBalance : Option ℚ
deriving DecidableEq, Repr

/-- The emitted `ActivityEvent` (part_000, lines 121-133). -/
structure ActivityEvent where
  type : String
  address : String
  timestamp : Int
  data : EventData
  txHash : Option String
  blockHeight : Option Nat
deriving DecidableEq, Repr

/-- Per-address mutable tracking state: `lastProcessedTx[address]` and
`addressBalances[address]` (in SOL); `none` models a missing key. -/
structure AddrState where
  lastProcessedTx : Option String
  balance : Option ℚ
deriving DecidableEq, Repr

/-- `lamports / 1e9`, the unit conversion the source applies everywhere. -/
def lamportsToSol (lamports : Nat) : ℚ := (lamports : ℚ) / 1000000000

/-- The `0.0001` noise threshold of the estimated fallback tier. -/
def threshold : ℚ := 1 / 10000

/-- The provisional event data built from the signature-list entry alone
(part_000, lines 125-130). -/
def provisionalData (latest : SignatureInfo) : EventData :=
  { amount := 0
    slot := latest.slot
    fee := 0
    status := if latest.err then "failed" else "success"
    balanceChange := none
    previousBalance := none
    newBalance := none }

/-- The estimated-tier update shared by both fallback call sites
(part_000, lines 173-182 and 195-205): populate the balance-change fields
only when the estimated change exceeds the threshold.  The second
component is the new tracked balance (`none` = leave it unchanged). -/
def estimatedUpdate (base : EventData) (previousBalance currentBalanceSOL : ℚ) :
    EventData × Option ℚ :=
  if |currentBalanceSOL - previousBalance| > threshold then
    ({ base with
        amount := |currentBalanceSOL - previousBalance|
        balanceChange := some (currentBalanceSOL - previousBalance)
        previousBalance := some previousBalance
        newBalance := some currentBalanceSOL },
      some currentBalanceSOL)
  else (base, none)

/-- Detail fetch plus the fallback tiers (part_000, lines 136-216).
Returns the final event data and the new tracked balance (`none` = leave
unchanged).  The `.error` arm of `transactionDetail` is the catch at line
210 (zero the amounts); the balance query of the address-not-found branch
(line 168) sits inside that same outer try, so its failure also lands in
the line-210 catch, whereas the no-detail branch (lines 188-208) has its
own inner catch that leaves the provisional data untouched. -/
def detailStep (st : AddrState) (resp : NodeResponse) (address : String)
    (base : EventData) : EventData × Option ℚ :=
  match resp.transactionDetail with
  | .error _ => ({ base with amount := 0, balanceChange := some 0 }, none)
  | .ok none =>
      match resp.balance with
      | .error _ => (base, none)
      | .ok lam => estimatedUpdate base (st.balance.getD 0) (lamportsToSol lam)
  | .ok (some tx) =>
      match tx.accountKeys.findIdx? (· = address) with
      | some i =>
          let preBalance := lamportsToSol (tx.preBalances.getD i 0)
          let postBalance := lamportsToSol (tx.postBalances.getD i 0)
          let balanceChange := postBalance - preBalance
          ({ base with
              amount := |balanceChange|
              fee := lamportsToSol tx.fee
              balanceChange := some balanceChange
              previousBalance := some preBalance
              newBalance := some postBalance },
            some postBalance)
      | none =>
          match resp.balance with
          | .error _ => ({ base with amount := 0, balanceChange := some 0 }, none)
          | .ok lam => estimatedUpdate base (st.balance.getD 0) (lamportsToSol lam)

/-- One address's share of a tick (part_000, lines 102-234): the body of
the per-address loop of `checkAddressActivities`, including the
per-address catch (line 232), which absorbs a failing signature fetch and
leaves the state unchanged.  `now` is the wall clock used when the entry
has no block time. -/
def checkAddress (st : AddrState) (resp : NodeResponse) (now : Int)
    (address : String) : Option ActivityEvent × AddrState :=
  match resp.signatures with
  | .error _ => (none, st)
  | .ok [] => (none, st)
  | .ok (latest :: _) =>
      if st.lastProcessedTx = some latest.signature then (none, st)
      else
        let du := detailStep st resp address (provisionalData latest)
        let event : ActivityEvent :=
          { type := "transactions"
            address := address
            timestamp :=
              match latest.blockTime with
              | some bt => bt * 1000
              | none => now
            data := du.1
            txHash := some latest.signature
            blockHeight := some latest.slot }
        (some event,
          { lastProcessedTx := some latest.signature
            balance := match du.2 with
              | some b => some b
              | none => st.balance })

/-- The whole tick of variant 0 (part_000, `checkAddressActivities`,
lines 99-236): iterate the per-address body over the watched addresses,
threading the two per-address maps, collecting emitted events in order.
`resps` gives each address's remote-node responses for this tick. -/
def checkAddressActivities (watched : List String)
    (resps : String → NodeResponse) (now : Int) :
    (String → AddrState) → List ActivityEvent × (String → AddrState)
  | st =>
    match watched with
    | [] => ([], st)
    | a :: rest =>
        let r := checkAddress (st a) (resps a) now a
        let st1 : String → AddrState := fun b => if b = a then r.2 else st b
        let rec2 := checkAddressActivities rest resps now st1
        (r.1.toList ++ rec2.1, rec2.2)

/-- The parts of a `getParsedTransaction` response variant 1 reads. -/
structure ParsedTx where
  blockTime : Option Int
  slot : Nat
deriving DecidableEq, Repr, Inhabited

/-- Remote-node responses for one address during one tick of variant 1. -/
structure NodeResponse1 where
  signatures : Except Unit (List SignatureInfo)
  parsedTransaction : Except Unit (Option ParsedTx)
deriving Inhabited

/-- The event variant 1 emits (part_001, lines 59-66); its `data` is the
raw parsed transaction, so only the identifying fields are modelled. -/
structure ActivityEvent1 where
  address : String
  timestamp : Int
  txHash : String
  blockHeight : Nat
deriving DecidableEq, Repr

/-- One address's share of a tick of variant 1 (part_001, lines 38-81):
same de-duplication on the latest signature; the event is emitted (and the
signature recorded) only when the parsed transaction is available; all
errors are absorbed by the per-address catch (line 79). -/
def checkAddress1 (last : Option String) (resp : NodeResponse1) (now : Int)
    (address : String) : Option ActivityEvent1 × Option String :=
  match resp.signatures with
  | .error _ => (none, last)
  | .ok [] => (none, last)
  | .ok (latest :: _) =>
      if last = some latest.signature then (none, last)
      else
        match resp.parsedTransaction with
        | .error _ => (none, last)
        | .ok none => (none, last)
        | .ok (some tx) =>
            (some { address := address
                    timestamp :=
                      match tx.blockTime with
                      | some bt => bt * 1000
                      | none => now
                    txHash := latest.signature
                    blockHeight := tx.slot },
              some latest.signature)

/-- The whole tick of variant 1 (part_001, lines 35-83). -/
def checkAddressActivities1 (watched : List String)
    (resps : String → NodeResponse1) (now : Int) :
    (String → Option String) → List ActivityEvent1 × (String → Option String)
  | st =>
    match watched with
    | [] => ([], st)
    | a :: rest =>
        let r := checkAddress1 (st a) (resps a) now a
        let st1 : String → Option String := fun b => if b = a then r.2 else st b
        let rec2 := checkAddressActivities1 rest resps now st1
        (r.1.toList ++ rec2.1, rec2.2)

/-- The mutable state of the variant-0 `SolActStream` object that the
lifecycle operations touch (part_000, lines 32-36), plus the timer
accounting described in the header. -/
structure Stream0State where
  watchedAddresses : List String
  addressBalances : String → Option ℚ
  lastProcessedTx : String → Option String
  pollingInterval : Bool
  liveTimers : Nat

/-- Variant-0 `startPolling` (part_000, lines 86-90): unconditionally
creates a new interval timer; a previously stored handle is overwritten,
so its timer keeps running unreachable. -/
def startPolling0 (st : Stream0State) : Stream0State :=
  { st with pollingInterval := true, liveTimers := st.liveTimers + 1 }

/-- Variant-0 `stopPolling` (part_000, lines 92-97): clears the stored
interval, if any. -/
def stopPolling0 (st : Stream0State) : Stream0State :=
  if st.pollingInterval then
    { st with pollingInterval := false, liveTimers := st.liveTimers - 1 }
  else st

/-- Variant-0 `subscribe` (part_000, lines 45-75): adds the address (a
`Set`, so adding a present element changes nothing), records the initial
balance — `0` when the balance fetch throws (lines 55-58) — and starts
polling when the set's size is exactly 1.  No validation is performed and
the operation never fails. -/
def subscribe (address : String) (balResp : Except Unit Nat)
    (st : Stream0State) : Stream0State :=
  let watched :=
    if address ∈ st.watchedAddresses then st.watchedAddresses
    else address :: st.watchedAddresses
  let bal : ℚ :=
    match balResp with
    | .ok lam => lamportsToSol lam
    | .error _ => 0
  let st1 : Stream0State :=
    { st with
        watchedAddresses := watched
        addressBalances := fun b => if b = address then some bal else st.addressBalances b }
  if watched.length = 1 then startPolling0 st1 else st1

/-- Variant-0 `unsubscribe` (part_000, lines 77-84, identical to the
closure returned by `subscribe`): removes the address and stops polling
when the set becomes empty. -/
def unsubscribe (address : String) (st : Stream0State) : Stream0State :=
  let watched := st.watchedAddresses.erase address
  let st1 : Stream0State := { st with watchedAddresses := watched }
  if watched.length = 0 then stopPolling0 st1 else st1

/-- The variant-1 state touched by its lifecycle operations (part_001). -/
structure Stream1State where
  watchedAddresses : List String
  pollingInterval : Bool
  liveTimers : Nat
deriving DecidableEq, Repr

/-- Variant-1 `startPolling` (part_001, lines 206-233): clears any
existing interval first, then creates a new one, so it never leaks a
timer. -/
def startPolling1 (st : Stream1State) : Stream1State :=
  let st1 :=
    if st.pollingInterval then
      { st with pollingInterval := false, liveTimers := st.liveTimers - 1 }
    else st
  { st1 with pollingInterval := true, liveTimers := st1.liveTimers + 1 }

/-- Variant-1 `watchAddress` (part_001, lines 87-122): throws on an
invalid address before touching any state; otherwise registers the
address and starts polling only when no interval handle exists.  The
library call `new PublicKey(address)` is not in the repository, so
syntactic validity is a parameter `valid`. -/
def watchAddress (valid : String → Bool) (address : String)
    (st : Stream1State) : Except Unit Stream1State :=
  if valid address then
    let watched :=
      if address ∈ st.watchedAddresses then st.watchedAddresses
      else address :: st.watchedAddresses
    let st1 : Stream1State := { st with watchedAddresses := watched }
    .ok (if st1.pollingInterval then st1 else startPolling1 st1)
  else .error ()

/-- The unsubscribe closure returned by `watchAddress` (part_001, lines
111-121): removes the address; clears the interval when the set became
empty and a handle exists. -/
def unsubscribe1 (address : String) (st : Stream1State) : Stream1State :=
  let watched := st.watchedAddresses.erase address
  let st1 : Stream1State := { st with watchedAddresses := watched }
  if watched.length = 0 ∧ st1.pollingInterval then
    { st1 with pollingInterval := false, liveTimers := st1.liveTimers - 1 }
  else st1

/-- A lifecycle operation on the variant-0 object. -/
inductive Op0 where
  | subscribeOp (address : String) (balResp : Except Unit Nat)
  | unsubscribeOp (address : String)

/-- Run a sequence of variant-0 lifecycle operations. -/
def runOps0 (st : Stream0State) : List Op0 → Stream0State
  | [] => st
  | .subscribeOp a r :: ops => runOps0 (subscribe a r st) ops
  | .unsubscribeOp a :: ops => runOps0 (unsubscribe a st) ops

/-- A trace of variant-0 operations that never re-subscribes an address
already watched (the well-behaved use of the API). -/
def goodOps0 (st : Stream0State) : List Op0 → Bool
  | [] => true
  | .subscribeOp a r :: ops =>
      !(st.watchedAddresses.contains a) && goodOps0 (subscribe a r st) ops
  | .unsubscribeOp a :: ops => goodOps0 (unsubscribe a st) ops

/-- A lifecycle operation on the variant-1 object. -/
inductive Op1 where
  | watchOp (address : String)
  | unsubscribeOp (address : String)

/-- Run a sequence of variant-1 lifecycle operations; a thrown
invalid-address error leaves the state unchanged. -/
def runOps1 (valid : String → Bool) (st : Stream1State) : List Op1 → Stream1State
  | [] => st
  | .watchOp a :: ops =>
      runOps1 valid
        (match watchAddress valid a st with
          | .ok st1 => st1
          | .error _ => st) ops
  | .unsubscribeOp a :: ops => runOps1 valid (unsubscribe1 a st) ops

/-- The initial variant-0 state (a freshly constructed object). -/
def init0 : Stream0State :=
  { watchedAddresses := []
    addressBalances := fun _ => none
    lastProcessedTx := fun _ => none
    pollingInterval := false
    liveTimers := 0 }

/-- The initial variant-1 state. -/
def init1 : Stream1State :=
  { watchedAddresses := [], pollingInterval := false, liveTimers := 0 }

/-- Configuration of the variant-1 reconnection logic (part_001,
lines 22-24). -/
structure RetryConfig where
  reconnect : Bool
  maxReconnectAttempts : Nat
deriving DecidableEq, Repr

/-- Supervisor state: the reconnect counter and whether the interval
timer is (still) scheduled. -/
structure PollState where
  reconnectAttempts : Nat
  pollingActive : Bool
deriving DecidableEq, Repr

/-- One interval firing of variant-1 `startPolling` (part_001, lines
214-231): when no timer is active no tick body runs; a successful
`checkAddressActivities` changes nothing (in particular the attempt
counter is NOT reset); a failure increments the counter while attempts
are below the maximum (scheduling a restart), cancels the timer once the
counter has reached the maximum, and otherwise (reconnect disabled,
counter still below the maximum) does nothing. -/
def pollTick (cfg : RetryConfig) (st : PollState) (success : Bool) : PollState :=
  if !st.pollingActive then st
  else if success then st
  else if cfg.reconnect ∧ st.reconnectAttempts < cfg.maxReconnectAttempts then
    { st with reconnectAttempts := st.reconnectAttempts + 1 }
  else if cfg.maxReconnectAttempts ≤ st.reconnectAttempts then
    { st with pollingActive := false }
  else st

/-- Run the supervisor over a sequence of tick outcomes
(`true` = the tick succeeded). -/
def runPoll (cfg : RetryConfig) (st : PollState) (outcomes : List Bool) : PollState :=
  outcomes.foldl (pollTick cfg) st

/-! ### Basic lemmas about the per-address step -/

lemma detailStep_delta (st : AddrState) (resp : NodeResponse) (address : String)
    (base : EventData) (hp : base.previousBalance = none) :
    ∀ p c n, (detailStep st resp address base).1.previousBalance = some p →
      (detailStep st resp address base).1.balanceChange = some c →
      (detailStep st resp address base).1.newBalance = some n → p + c = n := by
  unfold detailStep
  split
  · intro p c n h1 _ _
    simp only [hp] at h1
    exact absurd h1 (by simp)
  · split
    · intro p c n h1 _ _
      simp only [hp] at h1
      exact absurd h1 (by simp)
    · unfold estimatedUpdate
      split
      · intro p c n h1 h2 h3
        simp only [Option.some.injEq] at h1 h2 h3
        subst h1; subst h2; subst h3; ring
      · intro p c n h1 _ _
        simp only [hp] at h1
        exact absurd h1 (by simp)
  · split
    · intro p c n h1 h2 h3
      simp only [Option.some.injEq] at h1 h2 h3
      subst h1; subst h2; subst h3; ring
    · split
      · intro p c n h1 _ _
        simp only [hp] at h1
        exact absurd h1 (by simp)
      · unfold estimatedUpdate
        split
        · intro p c n h1 h2 h3
          simp only [Option.some.injEq] at h1 h2 h3
          subst h1; subst h2; subst h3; ring
        · intro p c n h1 _ _
          simp only [hp] at h1
          exact absurd h1 (by simp)

lemma checkAddress_emit_data (st : AddrState) (resp : NodeResponse) (now : Int)
    (address : String) (ev : ActivityEvent)
    (h : (checkAddress st resp now address).1 = some ev) :
    ∃ latest rest, resp.signatures = .ok (latest :: rest) ∧
      st.lastProcessedTx ≠ some latest.signature ∧
      ev.data = (detailStep st resp address (provisionalData latest)).1 ∧
      ev.txHash = some latest.signature ∧
      ev.blockHeight = some latest.slot ∧
      ev.address = address := by
  unfold checkAddress at h
  split at h
  · exact absurd h (by simp)
  · exact absurd h (by simp)
  · rename_i latest rest heq
    split at h
    · exact absurd h (by simp)
    · rename_i hne
      refine ⟨latest, rest, heq, hne, ?_⟩
      simp only [Option.some.injEq] at h
      subst h
      simp

lemma estimatedUpdate_le (base : EventData) (prev cur : ℚ)
    (h : |cur - prev| ≤ threshold) :
    estimatedUpdate base prev cur = (base, none) := by
  simp [estimatedUpdate, not_lt.mpr h]

lemma estimatedUpdate_gt (base : EventData) (prev cur : ℚ)
    (h : |cur - prev| > threshold) :
    estimatedUpdate base prev cur =
      ({ base with
          amount := |cur - prev|
          balanceChange := some (cur - prev)
          previousBalance := some prev
          newBalance := some cur },
        some cur) := by
  simp [estimatedUpdate, h]

lemma detailStep_error (st : AddrState) (resp : NodeResponse) (address : String)
    (base : EventData) (hdet : resp.transactionDetail = .error ()) :
    detailStep st resp address base =
      ({ base with amount := 0, balanceChange := some 0 }, none) := by
  simp [detailStep, hdet]

lemma detailStep_estimated (st : AddrState) (resp : NodeResponse)
    (address : String) (base : EventData) (lam : Nat)
    (htier : resp.transactionDetail = .ok none ∨
      ∃ tx, resp.transactionDetail = .ok (some tx) ∧
        tx.accountKeys.findIdx? (· = address) = none)
    (hbal : resp.balance = .ok lam) :
    detailStep st resp address base =
      estimatedUpdate base (st.balance.getD 0) (lamportsToSol lam) := by
  rcases htier with h | ⟨tx, h, hidx⟩
  · simp [detailStep, h, hbal]
  · simp [detailStep, h, hidx, hbal]

lemma detailStep_nodetail_balError (st : AddrState) (resp : NodeResponse)
    (address : String) (base : EventData)
    (hdet : resp.transactionDetail = .ok none)
    (hbal : resp.balance = .error ()) :
    detailStep st resp address base = (base, none) := by
  simp [detailStep, hdet, hbal]

lemma detailStep_notFound_balError (st : AddrState) (resp : NodeResponse)
    (address : String) (base : EventData) (tx : TxDetail)
    (hdet : resp.transactionDetail = .ok (some tx))
    (hidx : tx.accountKeys.findIdx? (· = address) = none)
    (hbal : resp.balance = .error ()) :
    detailStep st resp address base =
      ({ base with amount := 0, balanceChange := some 0 }, none) := by
  simp [detailStep, hdet, hidx, hbal]

lemma detailStep_precise (st : AddrState) (resp : NodeResponse)
    (address : String) (base : EventData) (tx : TxDetail) (i : Nat)
    (hdet : resp.transactionDetail = .ok (some tx))
    (hidx : tx.accountKeys.findIdx? (· = address) = some i) :
    detailStep st resp address base =
      ({ base with
          amount := |lamportsToSol (tx.postBalances.getD i 0) -
            lamportsToSol (tx.preBalances.getD i 0)|
          fee := lamportsToSol tx.fee
          balanceChange := some (lamportsToSol (tx.postBalances.getD i 0) -
            lamportsToSol (tx.preBalances.getD i 0))
          previousBalance := some (lamportsToSol (tx.preBalances.getD i 0))
          newBalance := some (lamportsToSol (tx.postBalances.getD i 0)) },
        some (lamportsToSol (tx.postBalances.getD i 0))) := by
  simp [detailStep, hdet, hidx]

lemma checkAddress_eq (st : AddrState) (resp : NodeResponse) (now : Int)
    (address : String) (latest : SignatureInfo) (rest : List SignatureInfo)
    (hsig : resp.signatures = .ok (latest :: rest))
    (hnew : st.lastProcessedTx ≠ some latest.signature) :
    checkAddress st resp now address =
      (some
        { type := "transactions"
          address := address
          timestamp :=
            match latest.blockTime with
            | some bt => bt * 1000
            | none => now
          data := (detailStep st resp address (provisionalData latest)).1
          txHash := some latest.signature
          blockHeight := some latest.slot },
        { lastProcessedTx := some latest.signature
          balance :=
            match (detailStep st resp address (provisionalData latest)).2 with
            | some b => some b
            | none => st.balance }) := by
  unfold checkAddress
  rw [hsig]
  simp [hnew]

lemma checkAddress_dedup (st : AddrState) (resp : NodeResponse) (now : Int)
    (address : String) (latest : SignatureInfo) (rest : List SignatureInfo)
    (hsig : resp.signatures = .ok (latest :: rest))
    (hold : st.lastProcessedTx = some latest.signature) :
    checkAddress st resp now address = (none, st) := by
  unfold checkAddress
  rw [hsig]
  simp [hold]

lemma checkAddress_sigError (st : AddrState) (resp : NodeResponse) (now : Int)
    (address : String) (hsig : resp.signatures = .error ()) :
    checkAddress st resp now address = (none, st) := by
  unfold checkAddress
  rw [hsig]

/-! ### Concrete inputs used by witnesses and counterexamples -/

/-- The transaction detail of the spec's precise-tier scenario:
`{preBalances:[5,0], postBalances:[3,2], accountKeys:["A","B"]}`. -/
def scenarioTx : TxDetail :=
  { accountKeys := ["A", "B"], preBalances := [5, 0], postBalances := [3, 2], fee := 1 }

/-- One tick's responses for the scenario: one signature
`{sig:"S1", slot:100}` and the detail above. -/
def scenarioResp : NodeResponse :=
  { signatures := .ok [{ signature := "S1", slot := 100, blockTime := none, err := false }]
    transactionDetail := .ok (some scenarioTx)
    balance := .error () }

/-- The event the embedded code emits on the scenario. -/
def scenarioEvent : ActivityEvent :=
  { type := "transactions"
    address := "A"
    timestamp := 7
    data :=
      { amount := 1 / 500000000
        slot := 100
        fee := 1 / 1000000000
        status := "success"
        balanceChange := some (-1 / 500000000)
        previousBalance := some (1 / 200000000)
        newBalance := some (3 / 1000000000) }
    txHash := some "S1"
    blockHeight := some 100 }

/-- A tick where the detail fetch throws but the balance query succeeds
with 5 SOL. -/
def failDetailResp : NodeResponse :=
  { signatures := .ok [{ signature := "S1", slot := 100, blockTime := some 3, err := false }]
    transactionDetail := .error ()
    balance := .ok 5000000000 }

/-! ### C3: delta consistency -/

/-- C3 (confirmed): for every event emitted by the per-address check whose
`previousBalance`, `balanceChange` and `newBalance` fields are populated
(which happens exactly in the precise tier and the estimated tier),
`previousBalance + balanceChange = newBalance`. -/
theorem delta_consistency (st : AddrState) (resp : NodeResponse) (now : Int)
    (address : String) (ev : ActivityEvent) (p c n : ℚ)
    (hev : (checkAddress st resp now address).1 = some ev)
    (hp : ev.data.previousBalance = some p)
    (hc : ev.data.balanceChange = some c)
    (hn : ev.data.newBalance = some n) : p + c = n := by
  obtain ⟨latest, rest, hsig, hne, hdata, -⟩ :=
    checkAddress_emit_data st resp now address ev hev
  rw [hdata] at hp hc hn
  exact detailStep_delta st resp address (provisionalData latest)
    (by simp [provisionalData]) p c n hp hc hn

/-- Witness for C3 at the concrete scenario tick. -/
theorem delta_consistency_witness :
    (1 : ℚ) / 200000000 + -1 / 500000000 = 3 / 1000000000 :=
  delta_consistency ⟨none, none⟩ scenarioResp 7 "A" scenarioEvent
    (1 / 200000000) (-1 / 500000000) (3 / 1000000000)
    (by
      rw [checkAddress_eq _ _ _ _ _ _ rfl (by simp),
        detailStep_precise _ _ _ _ scenarioTx 0 rfl (by decide)]
      norm_num [provisionalData, scenarioTx, scenarioEvent, lamportsToSol,
        abs_of_nonneg])
    rfl rfl rfl

/-! ### C2: precise tier -/

/-- C2 as stated is false: on the spec's own scenario (no prior signature,
one signature `S1` at slot 100, detail `pre [5,0] / post [3,2]` with the
address at index 0) the emitted event does NOT carry
`balanceChange = -2`, `previousBalance = 5`, `newBalance = 3`: the code
divides every pre/post value by 1e9 first, so the event carries
`-2/1e9`, `5/1e9` and `3/1e9`. -/
theorem precise_tier_counterexample :
    (checkAddress ⟨none, none⟩ scenarioResp 7 "A").1 = some scenarioEvent ∧
    scenarioEvent.data.balanceChange ≠ some (-2 : ℚ) ∧
    scenarioEvent.data.previousBalance ≠ some (5 : ℚ) ∧
    scenarioEvent.data.newBalance ≠ some (3 : ℚ) ∧
    scenarioEvent.data.balanceChange = some (-2 / 1000000000 : ℚ) ∧
    scenarioEvent.txHash = some "S1" ∧ scenarioEvent.blockHeight = some 100 := by
  refine ⟨?_, ?_, ?_, ?_, ?_, rfl, rfl⟩
  · rw [checkAddress_eq _ _ _ _ _ _ rfl (by simp),
      detailStep_precise _ _ _ _ scenarioTx 0 rfl (by decide)]
    norm_num [provisionalData, scenarioTx, scenarioEvent, lamportsToSol,
      abs_of_nonneg]
  · norm_num [scenarioEvent]
  · norm_num [scenarioEvent]
  · norm_num [scenarioEvent]
  · norm_num [scenarioEvent]

/-- C2 amended (proved): when the detail fetch succeeds and the monitored
address appears among the account keys at index i, exactly one event is
emitted, carrying `balanceChange = (postBalances[i] - preBalances[i])/1e9`
(the native-unit difference converted to SOL), `fee = meta.fee/1e9`,
`previousBalance = preBalances[i]/1e9`, `newBalance = postBalances[i]/1e9`,
with `txHash` and `blockHeight` from the signature entry; the tracked
balance becomes `postBalances[i]/1e9`.  On the spec's scenario the event
has `txHash "S1"`, `blockHeight 100`, `balanceChange -2/1e9`,
`previousBalance 5/1e9`, `newBalance 3/1e9` (see the witness). -/
theorem precise_tier (st : AddrState) (resp : NodeResponse) (now : Int)
    (address : String) (latest : SignatureInfo) (rest : List SignatureInfo)
    (tx : TxDetail) (i : Nat)
    (hsig : resp.signatures = .ok (latest :: rest))
    (hnew : st.lastProcessedTx ≠ some latest.signature)
    (hdet : resp.transactionDetail = .ok (some tx))
    (hidx : tx.accountKeys.findIdx? (· = address) = some i) :
    checkAddress st resp now address =
      (some
        { type := "transactions"
          address := address
          timestamp :=
            match latest.blockTime with
            | some bt => bt * 1000
            | none => now
          data :=
            { amount := |lamportsToSol (tx.postBalances.getD i 0) -
                lamportsToSol (tx.preBalances.getD i 0)|
              slot := latest.slot
              fee := lamportsToSol tx.fee
              status := if latest.err then "failed" else "success"
              balanceChange := some (lamportsToSol (tx.postBalances.getD i 0) -
                lamportsToSol (tx.preBalances.getD i 0))
              previousBalance := some (lamportsToSol (tx.preBalances.getD i 0))
              newBalance := some (lamportsToSol (tx.postBalances.getD i 0)) }
          txHash := some latest.signature
          blockHeight := some latest.slot },
        { lastProcessedTx := some latest.signature
          balance := some (lamportsToSol (tx.postBalances.getD i 0)) }) := by
  rw [checkAddress_eq st resp now address latest rest hsig hnew,
    detailStep_precise st resp address (provisionalData latest) tx i hdet hidx]
  simp [provisionalData]

/-- Witness for C2 amended: the scenario itself. -/
theorem precise_tier_witness :
    checkAddress ⟨none, none⟩ scenarioResp 7 "A" =
      (some scenarioEvent,
        { lastProcessedTx := some "S1", balance := some (3 / 1000000000) }) := by
  rw [precise_tier ⟨none, none⟩ scenarioResp 7 "A"
    { signature := "S1", slot := 100, blockTime := none, err := false } []
    scenarioTx 0 rfl (by simp) rfl (by decide)]
  norm_num [scenarioEvent, scenarioTx, lamportsToSol, abs_of_nonneg]

/-! ### C4: threshold suppression -/

/-- C4 (confirmed): whenever the estimated fallback tier runs (no usable
detail, or the address absent from the account keys) and the balance
query succeeds, a sub-threshold difference (|current - lastKnown| ≤
0.0001) leaves the balance-change fields unpopulated (`provisionalData`
has `balanceChange = previousBalance = newBalance = none`) and the
tracked balance unchanged, while the event is still emitted; only a
supra-threshold difference populates them and updates the balance. -/
theorem threshold_suppression (st : AddrState) (resp : NodeResponse)
    (now : Int) (address : String) (latest : SignatureInfo)
    (rest : List SignatureInfo) (lam : Nat)
    (hsig : resp.signatures = .ok (latest :: rest))
    (hnew : st.lastProcessedTx ≠ some latest.signature)
    (htier : resp.transactionDetail = .ok none ∨
      ∃ tx, resp.transactionDetail = .ok (some tx) ∧
        tx.accountKeys.findIdx? (· = address) = none)
    (hbal : resp.balance = .ok lam) :
    (|lamportsToSol lam - st.balance.getD 0| ≤ threshold →
      checkAddress st resp now address =
        (some
          { type := "transactions"
            address := address
            timestamp :=
              match latest.blockTime with
              | some bt => bt * 1000
              | none => now
            data := provisionalData latest
            txHash := some latest.signature
            blockHeight := some latest.slot },
          { lastProcessedTx := some latest.signature, balance := st.balance })) ∧
    (|lamportsToSol lam - st.balance.getD 0| > threshold →
      checkAddress st resp now address =
        (some
          { type := "transactions"
            address := address
            timestamp :=
              match latest.blockTime with
              | some bt => bt * 1000
              | none => now
            data :=
              { amount := |lamportsToSol lam - st.balance.getD 0|
                slot := latest.slot
                fee := 0
                status := if latest.err then "failed" else "success"
                balanceChange := some (lamportsToSol lam - st.balance.getD 0)
                previousBalance := some (st.balance.getD 0)
                newBalance := some (lamportsToSol lam) }
            txHash := some latest.signature
            blockHeight := some latest.slot },
          { lastProcessedTx := some latest.signature
            balance := some (lamportsToSol lam) })) := by
  constructor <;> intro h
  · rw [checkAddress_eq st resp now address latest rest hsig hnew,
      detailStep_estimated st resp address (provisionalData latest) lam htier hbal,
      estimatedUpdate_le _ _ _ h]
  · rw [checkAddress_eq st resp now address latest rest hsig hnew,
      detailStep_estimated st resp address (provisionalData latest) lam htier hbal,
      estimatedUpdate_gt _ _ _ h]
    simp [provisionalData]

/-- A tick whose detail fetch returns no usable transaction and whose
balance query returns the unchanged balance of 1 SOL. -/
def subThresholdResp : NodeResponse :=
  { signatures := .ok [{ signature := "S2", slot := 50, blockTime := none, err := false }]
    transactionDetail := .ok none
    balance := .ok 1000000000 }

/-- Same tick but the balance query returns 2 SOL (a 1 SOL change). -/
def supraThresholdResp : NodeResponse :=
  { signatures := .ok [{ signature := "S2", slot := 50, blockTime := none, err := false }]
    transactionDetail := .ok none
    balance := .ok 2000000000 }

/-- Witness for C4: with a tracked balance of 1 SOL, a balance query
returning 1 SOL (delta 0) emits the event with no balance fields and
leaves the balance; one returning 2 SOL (delta 1) populates them. -/
theorem threshold_suppression_witness :
    checkAddress ⟨none, some 1⟩ subThresholdResp 9 "B" =
      (some
        { type := "transactions"
          address := "B"
          timestamp := 9
          data :=
            { amount := 0, slot := 50, fee := 0, status := "success"
              balanceChange := none, previousBalance := none, newBalance := none }
          txHash := some "S2"
          blockHeight := some 50 },
        { lastProcessedTx := some "S2", balance := some 1 }) ∧
    checkAddress ⟨none, some 1⟩ supraThresholdResp 9 "B" =
      (some
        { type := "transactions"
          address := "B"
          timestamp := 9
          data :=
            { amount := 1, slot := 50, fee := 0, status := "success"
              balanceChange := some 1, previousBalance := some 1, newBalance := some 2 }
          txHash := some "S2"
          blockHeight := some 50 },
        { lastProcessedTx := some "S2", balance := some 2 }) := by
  constructor
  · rw [(threshold_suppression ⟨none, some 1⟩ subThresholdResp 9 "B" _ _ 1000000000
      rfl (by simp) (Or.inl rfl) rfl).1 (by norm_num [lamportsToSol, threshold])]
    norm_num [provisionalData]
  · rw [(threshold_suppression ⟨none, some 1⟩ supraThresholdResp 9 "B" _ _ 2000000000
      rfl (by simp) (Or.inl rfl) rfl).2 (by norm_num [lamportsToSol, threshold])]
    norm_num [lamportsToSol, abs_of_nonneg]

/-! ### C5: fallback chain ordering -/

/-- C5 as stated is false: when the transaction-detail fetch THROWS, the
code's catch (line 210) zeroes the amounts without ever making the direct
balance query, so even though the balance query would succeed with a
changed value (5 SOL against a last-known 0), the emitted event carries
`balanceChange = 0`, not the estimated `currentBalance - lastKnownBalance
= 5`. -/
theorem fallback_ordering_counterexample :
    ((checkAddress ⟨none, some 0⟩ failDetailResp 7 "A").1.map
        fun e => e.data.balanceChange) = some (some 0) ∧
    failDetailResp.balance = .ok 5000000000 ∧
    lamportsToSol 5000000000 - (0 : ℚ) = 5 ∧
    ((checkAddress ⟨none, some 0⟩ failDetailResp 7 "A").1.map
        fun e => e.data.balanceChange) ≠ some (some (5 : ℚ)) := by
  have h : checkAddress ⟨none, some 0⟩ failDetailResp 7 "A" =
      (some
        { type := "transactions"
          address := "A"
          timestamp := 3000
          data :=
            { amount := 0, slot := 100, fee := 0, status := "success"
              balanceChange := some 0, previousBalance := none, newBalance := none }
          txHash := some "S1"
          blockHeight := some 100 },
        { lastProcessedTx := some "S1", balance := some 0 }) := by
    rw [checkAddress_eq _ _ _ _ _ _ rfl (by simp),
      detailStep_error _ _ _ _ rfl]
    norm_num [provisionalData]
  refine ⟨by rw [h]; rfl, rfl, by norm_num [lamportsToSol], by rw [h]; norm_num⟩

/-- C5 amended (proved): the estimated tier runs only when the detail
fetch SUCCEEDS but yields no usable transaction (null/absent metadata) or
a transaction whose account keys lack the monitored address; in that case
a balance query succeeding with a supra-threshold change puts
`currentBalance - lastKnownBalance` on the event.  When the detail fetch
throws, the balance query is skipped and the event is emitted with amount
0 and `balanceChange = 0`; when the fallback balance query fails, the
event is still emitted with its amounts zeroed (`balanceChange` stays
unset in the no-detail branch, is set to 0 in the address-not-found
branch).  In every case `txHash` and `blockHeight` come from the
signature-list entry and the tracked balance is unchanged. -/
theorem fallback_chain (st : AddrState) (resp : NodeResponse) (now : Int)
    (address : String) (latest : SignatureInfo) (rest : List SignatureInfo)
    (hsig : resp.signatures = .ok (latest :: rest))
    (hnew : st.lastProcessedTx ≠ some latest.signature) :
    (resp.transactionDetail = .error () →
      checkAddress st resp now address =
        (some
          { type := "transactions"
            address := address
            timestamp :=
              match latest.blockTime with
              | some bt => bt * 1000
              | none => now
            data :=
              { amount := 0
                slot := latest.slot
                fee := 0
                status := if latest.err then "failed" else "success"
                balanceChange := some 0
                previousBalance := none
                newBalance := none }
            txHash := some latest.signature
            blockHeight := some latest.slot },
          { lastProcessedTx := some latest.signature, balance := st.balance })) ∧
    (∀ lam,
      (resp.transactionDetail = .ok none ∨
        ∃ tx, resp.transactionDetail = .ok (some tx) ∧
          tx.accountKeys.findIdx? (· = address) = none) →
      resp.balance = .ok lam →
      |lamportsToSol lam - st.balance.getD 0| > threshold →
      ((checkAddress st resp now address).1.map fun e => e.data.balanceChange) =
          some (some (lamportsToSol lam - st.balance.getD 0)) ∧
      ((checkAddress st resp now address).1.map fun e => e.txHash) =
          some (some latest.signature)) ∧
    (resp.transactionDetail = .ok none → resp.balance = .error () →
      checkAddress st resp now address =
        (some
          { type := "transactions"
            address := address
            timestamp :=
              match latest.blockTime with
              | some bt => bt * 1000
              | none => now
            data := provisionalData latest
            txHash := some latest.signature
            blockHeight := some latest.slot },
          { lastProcessedTx := some latest.signature, balance := st.balance })) ∧
    (∀ tx, resp.transactionDetail = .ok (some tx) →
      tx.accountKeys.findIdx? (· = address) = none →
      resp.balance = .error () →
      checkAddress st resp now address =
        (some
          { type := "transactions"
            address := address
            timestamp :=
              match latest.blockTime with
              | some bt => bt * 1000
              | none => now
            data :=
              { amount := 0
                slot := latest.slot
                fee := 0
                status := if latest.err then "failed" else "success"
                balanceChange := some 0
                previousBalance := none
                newBalance := none }
            txHash := some latest.signature
            blockHeight := some latest.slot },
          { lastProcessedTx := some latest.signature, balance := st.balance })) := by
  refine ⟨fun hdet => ?_, fun lam htier hbal hgt => ?_, fun hdet hbal => ?_,
    fun tx hdet hidx hbal => ?_⟩
  · rw [checkAddress_eq st resp now address latest rest hsig hnew,
      detailStep_error st resp address _ hdet]
    simp [provisionalData]
  · rw [checkAddress_eq st resp now address latest rest hsig hnew,
      detailStep_estimated st resp address (provisionalData latest) lam htier hbal,
      estimatedUpdate_gt _ _ _ hgt]
    exact ⟨rfl, rfl⟩
  · rw [checkAddress_eq st resp now address latest rest hsig hnew,
      detailStep_nodetail_balError st resp address _ hdet hbal]
  · rw [checkAddress_eq st resp now address latest rest hsig hnew,
      detailStep_notFound_balError st resp address _ tx hdet hidx hbal]
    simp [provisionalData]

/-- Detail returns no usable transaction and the balance query throws. -/
def bothFailResp : NodeResponse :=
  { signatures := .ok [{ signature := "S3", slot := 60, blockTime := none, err := false }]
    transactionDetail := .ok none
    balance := .error () }

/-- Witness for C5 amended: the detail-throw tick of the counterexample
and a tick where detail and balance query both fail. -/
theorem fallback_chain_witness :
    checkAddress ⟨none, some 0⟩ failDetailResp 7 "A" =
      (some
        { type := "transactions"
          address := "A"
          timestamp := 3000
          data :=
            { amount := 0, slot := 100, fee := 0, status := "success"
              balanceChange := some 0, previousBalance := none, newBalance := none }
          txHash := some "S1"
          blockHeight := some 100 },
        { lastProcessedTx := some "S1", balance := some 0 }) ∧
    checkAddress ⟨none, some 0⟩ bothFailResp 7 "A" =
      (some
        { type := "transactions"
          address := "A"
          timestamp := 7
          data :=
            { amount := 0, slot := 60, fee := 0, status := "success"
              balanceChange := none, previousBalance := none, newBalance := none }
          txHash := some "S3"
          blockHeight := some 60 },
        { lastProcessedTx := some "S3", balance := some 0 }) := by
  constructor
  · rw [(fallback_chain ⟨none, some 0⟩ failDetailResp 7 "A" _ _ rfl (by simp)).1 rfl]
    rfl
  · rw [(fallback_chain ⟨none, some 0⟩ bothFailResp 7 "A" _ _ rfl (by simp)).2.2.1 rfl rfl]
    norm_num [provisionalData]

/-! ### C10: failing initial balance fetch during subscribe -/

/-- C10 (confirmed): when the initial balance fetch during `subscribe`
throws, `subscribe` still completes, registers the address, and records
its last-known balance as `0`; consequently, when the estimated fallback
tier later runs for a tracked balance of `0` with a supra-threshold
current balance, the event reports the account's entire current balance
as the balance change. -/
theorem subscribe_balanceError_defaults_zero :
    (∀ address st,
      (subscribe address (.error ()) st).addressBalances address = some 0 ∧
      address ∈ (subscribe address (.error ()) st).watchedAddresses) ∧
    (∀ st resp now address latest rest lam,
      resp.signatures = .ok (latest :: rest) →
      st.lastProcessedTx ≠ some latest.signature →
      st.balance = some 0 →
      (resp.transactionDetail = .ok none ∨
        ∃ tx, resp.transactionDetail = .ok (some tx) ∧
          tx.accountKeys.findIdx? (· = address) = none) →
      resp.balance = .ok lam →
      |lamportsToSol lam| > threshold →
      ((checkAddress st resp now address).1.map fun e => e.data.balanceChange) =
        some (some (lamportsToSol lam))) := by
  constructor
  · intro address st
    unfold subscribe startPolling0
    constructor
    · (repeat' split) <;> simp_all [apply_ite Stream0State.addressBalances]
    · (repeat' split) <;> simp_all [apply_ite Stream0State.watchedAddresses] <;>
        try (split <;> simp_all)
  · intro st resp now address latest rest lam hsig hnew h0 htier hbal hgt
    rw [checkAddress_eq st resp now address latest rest hsig hnew,
      detailStep_estimated st resp address (provisionalData latest) lam htier hbal,
      h0]
    rw [estimatedUpdate_gt _ _ _ (by simpa using hgt)]
    simp

/-- Witness for C10: subscribing `"C"` with a failing balance fetch, then
an estimated-tier tick against the recorded zero balance. -/
theorem subscribe_balanceError_defaults_zero_witness :
    ((subscribe "C" (.error ()) init0).addressBalances "C" = some 0 ∧
      "C" ∈ (subscribe "C" (.error ()) init0).watchedAddresses) ∧
    ((checkAddress ⟨none, some 0⟩ supraThresholdResp 9 "B").1.map
        fun e => e.data.balanceChange) = some (some (lamportsToSol 2000000000)) :=
  ⟨subscribe_balanceError_defaults_zero.1 "C" init0,
    subscribe_balanceError_defaults_zero.2 ⟨none, some 0⟩ supraThresholdResp 9 "B"
      _ _ 2000000000 rfl (by simp) rfl (Or.inl rfl) rfl
      (by norm_num [lamportsToSol, threshold])⟩

/-! ### Tick decomposition lemmas (both variants) -/

lemma checkAddressActivities_nil (resps : String → NodeResponse) (now : Int)
    (st : String → AddrState) :
    checkAddressActivities [] resps now st = ([], st) := rfl

lemma checkAddressActivities_cons (a : String) (rest : List String)
    (resps : String → NodeResponse) (now : Int) (st : String → AddrState) :
    checkAddressActivities (a :: rest) resps now st =
      ((checkAddress (st a) (resps a) now a).1.toList ++
          (checkAddressActivities rest resps now
            (fun b => if b = a then (checkAddress (st a) (resps a) now a).2
              else st b)).1,
        (checkAddressActivities rest resps now
          (fun b => if b = a then (checkAddress (st a) (resps a) now a).2
            else st b)).2) := rfl

lemma tick_events_address (watched : List String)
    (resps : String → NodeResponse) (now : Int) (st : String → AddrState) :
    ∀ e ∈ (checkAddressActivities watched resps now st).1, e.address ∈ watched := by
  induction watched generalizing st with
  | nil => simp [checkAddressActivities_nil]
  | cons a rest ih =>
      intro e he
      rw [checkAddressActivities_cons] at he
      rcases List.mem_append.mp he with he | he
      · rcases ho : (checkAddress (st a) (resps a) now a).1 with - | ev
        · rw [ho] at he; simp at he
        · rw [ho] at he
          simp only [Option.toList_some, List.mem_singleton] at he
          subst he
          obtain ⟨-, -, -, -, -, -, -, ha⟩ :=
            checkAddress_emit_data _ _ _ _ _ ho
          simp [ha]
      · exact List.mem_cons_of_mem _ (ih _ _ he)

lemma tick_state_not_mem (watched : List String)
    (resps : String → NodeResponse) (now : Int) (st : String → AddrState)
    (b : String) (hb : b ∉ watched) :
    (checkAddressActivities watched resps now st).2 b = st b := by
  induction watched generalizing st with
  | nil => rfl
  | cons a rest ih =>
      rw [checkAddressActivities_cons]
      have hba : b ≠ a := fun h => hb (h ▸ List.mem_cons_self a rest)
      have hbr : b ∉ rest := fun h => hb (List.mem_cons_of_mem _ h)
      rw [ih _ hbr]
      simp [hba]

lemma tick_filter_not_mem (watched : List String)
    (resps : String → NodeResponse) (now : Int) (st : String → AddrState)
    (b : String) (hb : b ∉ watched) :
    (checkAddressActivities watched resps now st).1.filter
      (fun e => e.address == b) = [] := by
  rw [List.filter_eq_nil_iff]
  intro e he
  have hm := tick_events_address watched resps now st e he
  simp only [beq_iff_eq]
  intro hco
  exact hb (hco ▸ hm)

lemma tick_per_address (watched : List String)
    (resps : String → NodeResponse) (now : Int) (st : String → AddrState)
    (b : String) (hnd : watched.Nodup) (hb : b ∈ watched) :
    (checkAddressActivities watched resps now st).1.filter
        (fun e => e.address == b) =
      (checkAddress (st b) (resps b) now b).1.toList ∧
    (checkAddressActivities watched resps now st).2 b =
      (checkAddress (st b) (resps b) now b).2 := by
  induction watched generalizing st with
  | nil => cases hb
  | cons a rest ih =>
      rw [checkAddressActivities_cons]
      obtain ⟨hna, hndr⟩ := List.nodup_cons.mp hnd
      by_cases hba : b = a
      · subst hba
        constructor
        · rw [List.filter_append, tick_filter_not_mem _ _ _ _ _ hna,
            List.append_nil]
          rcases ho : (checkAddress (st b) (resps b) now b).1 with - | ev
          · simp
          · obtain ⟨-, -, -, -, -, -, -, ha⟩ :=
              checkAddress_emit_data _ _ _ _ _ ho
            simp [ha]
        · rw [tick_state_not_mem _ _ _ _ _ hna]
          simp
      · have hbr : b ∈ rest := (List.mem_cons.mp hb).resolve_left hba
        obtain ⟨ih1, ih2⟩ :=
          ih (fun c => if c = a then (checkAddress (st a) (resps a) now a).2
            else st c) hndr hbr
        simp only [if_neg hba] at ih1 ih2
        constructor
        · rw [List.filter_append, ih1]
          rcases ho : (checkAddress (st a) (resps a) now a).1 with - | ev
          · simp
          · obtain ⟨-, -, -, -, -, -, -, ha⟩ :=
              checkAddress_emit_data _ _ _ _ _ ho
            have hab : ¬a = b := fun h => hba h.symm
            simp [ha, hab]
        · rw [ih2]

lemma checkAddress1_emit_data (last : Option String) (resp : NodeResponse1)
    (now : Int) (address : String) (ev : ActivityEvent1)
    (h : (checkAddress1 last resp now address).1 = some ev) :
    ev.address = address := by
  unfold checkAddress1 at h
  repeat' split at h
  all_goals simp_all
  all_goals (subst h; rfl)

lemma checkAddressActivities1_nil (resps : String → NodeResponse1) (now : Int)
    (st : String → Option String) :
    checkAddressActivities1 [] resps now st = ([], st) := rfl

lemma checkAddressActivities1_cons (a : String) (rest : List String)
    (resps : String → NodeResponse1) (now : Int) (st : String → Option String) :
    checkAddressActivities1 (a :: rest) resps now st =
      ((checkAddress1 (st a) (resps a) now a).1.toList ++
          (checkAddressActivities1 rest resps now
            (fun b => if b = a then (checkAddress1 (st a) (resps a) now a).2
              else st b)).1,
        (checkAddressActivities1 rest resps now
          (fun b => if b = a then (checkAddress1 (st a) (resps a) now a).2
            else st b)).2) := rfl

lemma tick1_events_address (watched : List String)
    (resps : String → NodeResponse1) (now : Int) (st : String → Option String) :
    ∀ e ∈ (checkAddressActivities1 watched resps now st).1,
      e.address ∈ watched := by
  induction watched generalizing st with
  | nil => simp [checkAddressActivities1_nil]
  | cons a rest ih =>
      intro e he
      rw [checkAddressActivities1_cons] at he
      rcases List.mem_append.mp he with he | he
      · rcases ho : (checkAddress1 (st a) (resps a) now a).1 with - | ev
        · rw [ho] at he; simp at he
        · rw [ho] at he
          simp only [Option.toList_some, List.mem_singleton] at he
          subst he
          simp [checkAddress1_emit_data _ _ _ _ _ ho]
      · exact List.mem_cons_of_mem _ (ih _ _ he)

lemma tick1_state_not_mem (watched : List String)
    (resps : String → NodeResponse1) (now : Int) (st : String → Option String)
    (b : String) (hb : b ∉ watched) :
    (checkAddressActivities1 watched resps now st).2 b = st b := by
  induction watched generalizing st with
  | nil => rfl
  | cons a rest ih =>
      rw [checkAddressActivities1_cons]
      have hba : b ≠ a := fun h => hb (h ▸ List.mem_cons_self a rest)
      have hbr : b ∉ rest := fun h => hb (List.mem_cons_of_mem _ h)
      rw [ih _ hbr]
      simp [hba]

lemma tick1_filter_not_mem (watched : List String)
    (resps : String → NodeResponse1) (now : Int) (st : String → Option String)
    (b : String) (hb : b ∉ watched) :
    (checkAddressActivities1 watched resps now st).1.filter
      (fun e => e.address == b) = [] := by
  rw [List.filter_eq_nil_iff]
  intro e he
  have hm := tick1_events_address watched resps now st e he
  simp only [beq_iff_eq]
  intro hco
  exact hb (hco ▸ hm)

lemma tick1_per_address (watched : List String)
    (resps : String → NodeResponse1) (now : Int) (st : String → Option String)
    (b : String) (hnd : watched.Nodup) (hb : b ∈ watched) :
    (checkAddressActivities1 watched resps now st).1.filter
        (fun e => e.address == b) =
      (checkAddress1 (st b) (resps b) now b).1.toList ∧
    (checkAddressActivities1 watched resps now st).2 b =
      (checkAddress1 (st b) (resps b) now b).2 := by
  induction watched generalizing st with
  | nil => cases hb
  | cons a rest ih =>
      rw [checkAddressActivities1_cons]
      obtain ⟨hna, hndr⟩ := List.nodup_cons.mp hnd
      by_cases hba : b = a
      · subst hba
        constructor
        · rw [List.filter_append, tick1_filter_not_mem _ _ _ _ _ hna,
            List.append_nil]
          rcases ho : (checkAddress1 (st b) (resps b) now b).1 with - | ev
          · simp
          · simp [checkAddress1_emit_data _ _ _ _ _ ho]
        · rw [tick1_state_not_mem _ _ _ _ _ hna]
          simp
      · have hbr : b ∈ rest := (List.mem_cons.mp hb).resolve_left hba
        obtain ⟨ih1, ih2⟩ :=
          ih (fun c => if c = a then (checkAddress1 (st a) (resps a) now a).2
            else st c) hndr hbr
        simp only [if_neg hba] at ih1 ih2
        constructor
        · rw [List.filter_append, ih1]
          rcases ho : (checkAddress1 (st a) (resps a) now a).1 with - | ev
          · simp
          · have hab : ¬a = b := fun h => hba h.symm
            simp [checkAddress1_emit_data _ _ _ _ _ ho, hab]
        · rw [ih2]

/-! ### C6: per-address error containment -/

/-- C6 (confirmed): in both variants the per-address loop body absorbs a
failing signature fetch (no event, state unchanged) and never aborts the
tick; moreover, for distinct watched addresses, each address's emitted
events and final tracking state during a tick are exactly those of its
own per-address check, so an error at one address cannot prevent any
other address from being checked in the same tick. -/
theorem per_address_error_containment :
    (∀ st resp now address, resp.signatures = .error () →
      checkAddress st resp now address = (none, st)) ∧
    (∀ watched resps now st b, watched.Nodup → b ∈ watched →
      (checkAddressActivities watched resps now st).1.filter
          (fun e => e.address == b) =
        (checkAddress (st b) (resps b) now b).1.toList ∧
      (checkAddressActivities watched resps now st).2 b =
        (checkAddress (st b) (resps b) now b).2) ∧
    (∀ last resp now address, resp.signatures = .error () →
      checkAddress1 last resp now address = (none, last)) ∧
    (∀ watched resps now st b, watched.Nodup → b ∈ watched →
      (checkAddressActivities1 watched resps now st).1.filter
          (fun e => e.address == b) =
        (checkAddress1 (st b) (resps b) now b).1.toList ∧
      (checkAddressActivities1 watched resps now st).2 b =
        (checkAddress1 (st b) (resps b) now b).2) := by
  refine ⟨checkAddress_sigError, tick_per_address, ?_, tick1_per_address⟩
  intro last resp now address h
  unfold checkAddress1
  rw [h]

/-- A tick where every remote call throws (variant 0). -/
def errorResp : NodeResponse :=
  { signatures := .error (), transactionDetail := .error (), balance := .error () }

/-- Responses where address `"A"` errors and every other address gets the
scenario tick. -/
def mixedResps : String → NodeResponse :=
  fun a => if a = "A" then errorResp else scenarioResp

/-- A tick where every remote call throws (variant 1). -/
def errorResp1 : NodeResponse1 :=
  { signatures := .error (), parsedTransaction := .error () }

/-- A successful variant-1 tick. -/
def okResp1 : NodeResponse1 :=
  { signatures := .ok [{ signature := "T1", slot := 5, blockTime := some 2, err := false }]
    parsedTransaction := .ok (some { blockTime := some 2, slot := 5 }) }

/-- Responses where address `"A"` errors and every other address gets the
successful variant-1 tick. -/
def mixedResps1 : String → NodeResponse1 :=
  fun a => if a = "A" then errorResp1 else okResp1

/-- Witness for C6: with `"A"` erroring and `"B"` succeeding in the same
tick, `"B"` is still processed exactly as if alone, in both variants. -/
theorem per_address_error_containment_witness :
    checkAddress ⟨none, none⟩ errorResp 7 "A" = (none, ⟨none, none⟩) ∧
    ((checkAddressActivities ["A", "B"] mixedResps 7
        (fun _ => ⟨none, none⟩)).1.filter (fun e => e.address == "B") =
      (checkAddress ⟨none, none⟩ (mixedResps "B") 7 "B").1.toList ∧
    (checkAddressActivities ["A", "B"] mixedResps 7
        (fun _ => ⟨none, none⟩)).2 "B" =
      (checkAddress ⟨none, none⟩ (mixedResps "B") 7 "B").2) ∧
    checkAddress1 none errorResp1 7 "A" = (none, none) ∧
    ((checkAddressActivities1 ["A", "B"] mixedResps1 7 (fun _ => none)).1.filter
        (fun e => e.address == "B") =
      (checkAddress1 none (mixedResps1 "B") 7 "B").1.toList ∧
    (checkAddressActivities1 ["A", "B"] mixedResps1 7 (fun _ => none)).2 "B" =
      (checkAddress1 none (mixedResps1 "B") 7 "B").2) :=
  ⟨per_address_error_containment.1 ⟨none, none⟩ errorResp 7 "A" rfl,
    per_address_error_containment.2.1 ["A", "B"] mixedResps 7
      (fun _ => ⟨none, none⟩) "B" (by decide) (by decide),
    per_address_error_containment.2.2.1 none errorResp1 7 "A" rfl,
    per_address_error_containment.2.2.2 ["A", "B"] mixedResps1 7
      (fun _ => none) "B" (by decide) (by decide)⟩

/-! ### Multi-tick de-duplication (C1 infrastructure) -/

/-- The latest signature a tick's response offers for an address, if any. -/
def latestSig (resp : NodeResponse) : Option String :=
  match resp.signatures with
  | .ok (latest :: _) => some latest.signature
  | _ => none

/-- Run the variant-0 per-address check over a sequence of ticks for one
address, threading the tracking state and collecting the emitted events. -/
def runTicks (now : Int) (address : String) :
    AddrState → List NodeResponse → List ActivityEvent × AddrState
  | st, [] => ([], st)
  | st, r :: rs =>
      let p := checkAddress st r now address
      let q := runTicks now address p.2 rs
      (p.1.toList ++ q.1, q.2)

/-- The transaction signatures carried by the events a run emits. -/
def emittedSigs (now : Int) (address : String) (st : AddrState)
    (rs : List NodeResponse) : List String :=
  ((runTicks now address st rs).1).filterMap ActivityEvent.txHash

/-- A well-behaved sequence of node responses: once the reported latest
signature has moved away from a value, it never returns to it (the chain
history only grows).  Quantified over tick indices `i < j < k`. -/
def NoRevisit (rs : List NodeResponse) : Prop :=
  ∀ k, k < rs.length → ∀ j, j < k → ∀ i, i < j →
    latestSig (rs.getD i default) = latestSig (rs.getD k default) →
    (latestSig (rs.getD i default)).isSome →
    latestSig (rs.getD j default) = none ∨
      latestSig (rs.getD j default) = latestSig (rs.getD i default)

/-- Before any tick whose latest signature is `s`, every defined latest
signature is `s` itself. -/
def Guard (s : String) (rs : List NodeResponse) : Prop :=
  ∀ k, k < rs.length → latestSig (rs.getD k default) = some s →
    ∀ j, j < k →
      latestSig (rs.getD j default) = none ∨
        latestSig (rs.getD j default) = some s

lemma noRevisit_tail (r : NodeResponse) (rs : List NodeResponse)
    (h : NoRevisit (r :: rs)) : NoRevisit rs := by
  intro k hk j hj i hi
  have h2 := h (k + 1) (by simpa using Nat.succ_lt_succ hk) (j + 1)
    (Nat.succ_lt_succ hj) (i + 1) (Nat.succ_lt_succ hi)
  simpa [List.getD_cons_succ] using h2

lemma guard_tail (s : String) (r : NodeResponse) (rs : List NodeResponse)
    (h : Guard s (r :: rs)) : Guard s rs := by
  intro k hk hlat j hj
  have h2 := h (k + 1) (by simpa using Nat.succ_lt_succ hk)
    (by simpa [List.getD_cons_succ] using hlat) (j + 1) (Nat.succ_lt_succ hj)
  simpa [List.getD_cons_succ] using h2

lemma checkAddress_emit_lastTx (st : AddrState) (resp : NodeResponse)
    (now : Int) (address : String) (ev : ActivityEvent)
    (h : (checkAddress st resp now address).1 = some ev) :
    (checkAddress st resp now address).2.lastProcessedTx = ev.txHash := by
  obtain ⟨latest, rest, hsig, hne, -, htx, -, -⟩ :=
    checkAddress_emit_data _ _ _ _ _ h
  rw [checkAddress_eq st resp now address latest rest hsig hne]
  simp [htx]

lemma checkAddress_none_state (st : AddrState) (resp : NodeResponse)
    (now : Int) (address : String)
    (h : (checkAddress st resp now address).1 = none) :
    (checkAddress st resp now address).2 = st := by
  rcases hsig : resp.signatures with u | l
  · rw [checkAddress_sigError st resp now address (by cases u; exact hsig)]
  · cases l with
    | nil => unfold checkAddress; rw [hsig]
    | cons latest rest =>
        by_cases hl : st.lastProcessedTx = some latest.signature
        · rw [checkAddress_dedup st resp now address latest rest hsig hl]
        · rw [checkAddress_eq st resp now address latest rest hsig hl] at h
          exact absurd h (by simp)

lemma checkAddress_emit_latestSig (st : AddrState) (resp : NodeResponse)
    (now : Int) (address : String) (ev : ActivityEvent)
    (h : (checkAddress st resp now address).1 = some ev) :
    latestSig resp = ev.txHash := by
  obtain ⟨latest, rest, hsig, -, -, htx, -, -⟩ :=
    checkAddress_emit_data _ _ _ _ _ h
  rw [latestSig, hsig, htx]

lemma emittedSigs_nil (now : Int) (address : String) (st : AddrState) :
    emittedSigs now address st [] = [] := rfl

lemma emittedSigs_cons (now : Int) (address : String) (st : AddrState)
    (r : NodeResponse) (rs : List NodeResponse) :
    emittedSigs now address st (r :: rs) =
      (checkAddress st r now address).1.toList.filterMap ActivityEvent.txHash ++
        emittedSigs now address (checkAddress st r now address).2 rs := by
  simp [emittedSigs, runTicks, List.filterMap_append]

lemma not_emitted_of_not_latest (now : Int) (address : String)
    (rs : List NodeResponse) (st : AddrState) (s : String)
    (h : ∀ r ∈ rs, latestSig r ≠ some s) :
    s ∉ emittedSigs now address st rs := by
  induction rs generalizing st with
  | nil => simp [emittedSigs_nil]
  | cons r rs ih =>
      rw [emittedSigs_cons]
      intro hmem
      rcases List.mem_append.mp hmem with hm | hm
      · rcases ho : (checkAddress st r now address).1 with - | ev
        · rw [ho] at hm; simp at hm
        · rw [ho] at hm
          have hlat := checkAddress_emit_latestSig _ _ _ _ _ ho
          rcases htx : ev.txHash with - | t
          · simp [htx] at hm
          · simp [htx] at hm
            subst hm
            exact h r (List.mem_cons_self r rs) (by rw [hlat, htx])
      · exact ih _ (fun r' hr' => h r' (List.mem_cons_of_mem _ hr')) hm

lemma not_emitted_of_guard (now : Int) (address : String)
    (rs : List NodeResponse) (st : AddrState) (s : String)
    (hst : st.lastProcessedTx = some s) (hg : Guard s rs) :
    s ∉ emittedSigs now address st rs := by
  induction rs generalizing st with
  | nil => simp [emittedSigs_nil]
  | cons r rs ih =>
      rw [emittedSigs_cons]
      intro hmem
      rcases List.mem_append.mp hmem with hm | hm
      · rcases ho : (checkAddress st r now address).1 with - | ev
        · rw [ho] at hm; simp at hm
        · rw [ho] at hm
          obtain ⟨latest, r2, hsig, hne, -, htx, -, -⟩ :=
            checkAddress_emit_data _ _ _ _ _ ho
          simp [htx] at hm
          subst hm
          exact hne hst
      · rcases ho : (checkAddress st r now address).1 with - | ev
        · rw [checkAddress_none_state _ _ _ _ ho] at hm
          exact ih _ hst (guard_tail s r rs hg) hm
        · obtain ⟨latest, r2, hsig, hne, -, htx, -, -⟩ :=
            checkAddress_emit_data _ _ _ _ _ ho
          have hts : latest.signature ≠ s := fun hcontra => hne (by rw [hcontra]; exact hst)
          have hnone : ∀ r' ∈ rs, latestSig r' ≠ some s := by
            intro r' hr' hlat
            obtain ⟨k, hk, hget⟩ := List.mem_iff_getElem.mp hr'
            have hgetD : rs.getD k default = r' := by
              rw [List.getD_eq_getElem rs default hk, hget]
            have h2 := hg (k + 1) (by simpa using Nat.succ_lt_succ hk)
              (by rw [List.getD_cons_succ, hgetD]; exact hlat) 0 (Nat.succ_pos k)
            rw [List.getD_cons_zero] at h2
            have hlr : latestSig r = some latest.signature := by
              rw [latestSig, hsig]
            rcases h2 with h2 | h2
            · rw [hlr] at h2; exact absurd h2 (by simp)
            · rw [hlr] at h2
              simp only [Option.some.injEq] at h2
              exact hts h2
          exact not_emitted_of_not_latest now address rs _ s hnone hm

lemma emittedSigs_nodup (now : Int) (address : String)
    (rs : List NodeResponse) (st : AddrState) (hnr : NoRevisit rs) :
    (emittedSigs now address st rs).Nodup := by
  induction rs generalizing st with
  | nil => simp [emittedSigs_nil]
  | cons r rs ih =>
      rw [emittedSigs_cons]
      rcases ho : (checkAddress st r now address).1 with - | ev
      · simpa using ih _ (noRevisit_tail r rs hnr)
      · obtain ⟨latest, r2, hsig, hne, -, htx, -, -⟩ :=
          checkAddress_emit_data _ _ _ _ _ ho
        simp only [htx, Option.toList_some, List.filterMap_cons, List.filterMap_nil,
          List.singleton_append, List.nodup_cons]
        constructor
        · have hst : (checkAddress st r now address).2.lastProcessedTx =
              some latest.signature := by
            rw [checkAddress_emit_lastTx _ _ _ _ _ ho, htx]
          apply not_emitted_of_guard now address rs _ _ hst
          intro k hk hlat j hj
          have hlr : latestSig ((r :: rs).getD 0 default) = some latest.signature := by
            rw [List.getD_cons_zero, latestSig, hsig]
          have h2 := hnr (k + 1) (by simpa using Nat.succ_lt_succ hk) (j + 1)
            (Nat.succ_lt_succ hj) 0 (Nat.succ_pos j)
            (by rw [hlr, List.getD_cons_succ, hlat]) (by rw [hlr]; rfl)
          rw [hlr] at h2
          simpa [List.getD_cons_succ] using h2
        · exact ih _ (noRevisit_tail r rs hnr)

/-- C1 (confirmed): (1) if the latest signature the node returns equals
the recorded `lastProcessedTx`, the check emits no event and changes no
state; (2) after an event is emitted, `lastProcessedTx` is set to that
event's signature; (3) across any sequence of ticks whose reported latest
signatures never revisit an abandoned value (`NoRevisit`, the behaviour of
a growing chain history), the signatures carried by the emitted events
are pairwise distinct: once an event for `S` was emitted, no later tick
emits `S` again. -/
theorem dedup_by_latest_signature :
    (∀ st resp now address latest rest,
      resp.signatures = .ok (latest :: rest) →
      st.lastProcessedTx = some latest.signature →
      checkAddress st resp now address = (none, st)) ∧
    (∀ st resp now address ev,
      (checkAddress st resp now address).1 = some ev →
      (checkAddress st resp now address).2.lastProcessedTx = ev.txHash) ∧
    (∀ now address st rs, NoRevisit rs →
      (emittedSigs now address st rs).Nodup) :=
  ⟨fun st resp now address latest rest hsig hold =>
      checkAddress_dedup st resp now address latest rest hsig hold,
    checkAddress_emit_lastTx,
    fun now address st rs hnr => emittedSigs_nodup now address rs st hnr⟩

/-- Witness for C1: a second tick returning the already-processed `S1`
emits nothing; the scenario tick records `S1`; a two-tick run satisfying
`NoRevisit` has no duplicated emitted signature. -/
theorem dedup_by_latest_signature_witness :
    checkAddress ⟨some "S1", none⟩ scenarioResp 7 "A" =
      (none, ⟨some "S1", none⟩) ∧
    (checkAddress ⟨none, none⟩ scenarioResp 7 "A").2.lastProcessedTx =
      scenarioEvent.txHash ∧
    (emittedSigs 7 "A" ⟨none, none⟩ [scenarioResp, errorResp]).Nodup :=
  ⟨dedup_by_latest_signature.1 ⟨some "S1", none⟩ scenarioResp 7 "A" _ _ rfl rfl,
    dedup_by_latest_signature.2.1 ⟨none, none⟩ scenarioResp 7 "A" scenarioEvent
      (by
        rw [checkAddress_eq _ _ _ _ _ _ rfl (by simp),
          detailStep_precise _ _ _ _ scenarioTx 0 rfl (by decide)]
        norm_num [provisionalData, scenarioTx, scenarioEvent, lamportsToSol,
          abs_of_nonneg]),
    dedup_by_latest_signature.2.2 7 "A" ⟨none, none⟩ [scenarioResp, errorResp]
      (by intro k hk j hj i hi; simp at hk; omega)⟩

/-! ### C7: registry/scheduler lifecycle -/

/-- The intended lifecycle invariant: the handle is set exactly when the
registry is non-empty, and the number of live timers matches the handle. -/
def Inv0 (st : Stream0State) : Prop :=
  st.pollingInterval = !st.watchedAddresses.isEmpty ∧
  st.liveTimers = if st.pollingInterval then 1 else 0

/-- Same invariant for the variant-1 object. -/
def Inv1 (st : Stream1State) : Prop :=
  st.pollingInterval = !st.watchedAddresses.isEmpty ∧
  st.liveTimers = if st.pollingInterval then 1 else 0

lemma inv0_subscribe (a : String) (r : Except Unit Nat) (st : Stream0State)
    (h : Inv0 st) (hnew : a ∉ st.watchedAddresses) : Inv0 (subscribe a r st) := by
  obtain ⟨h1, h2⟩ := h
  unfold subscribe startPolling0 Inv0
  simp only [if_neg hnew]
  rcases he : st.watchedAddresses with - | ⟨b, tl⟩
  · rw [he] at h1
    simp at h1
    rw [h1] at h2
    simp at h2
    simp [h1, h2]
  · rw [he] at h1
    simp at h1
    rw [h1] at h2
    simp at h2
    simp [h1, h2]

lemma inv0_unsubscribe (a : String) (st : Stream0State) (h : Inv0 st) :
    Inv0 (unsubscribe a st) := by
  obtain ⟨h1, h2⟩ := h
  unfold unsubscribe stopPolling0 Inv0
  rcases he : st.watchedAddresses.erase a with - | ⟨b, tl⟩
  · by_cases hp : st.pollingInterval
    · rw [hp] at h2
      simp at h2
      simp [hp, h2]
    · simp only [Bool.not_eq_true] at hp
      rw [hp] at h2
      simp at h2
      simp [hp, h2]
  · have hne : st.watchedAddresses ≠ [] := by
      intro hh
      rw [hh] at he
      simp at he
    have h1t : st.pollingInterval = true := by
      rw [h1]
      simpa using hne
    rw [h1t] at h2
    simp at h2
    simp [h1t, h2]

lemma inv0_runOps (ops : List Op0) (st : Stream0State) (h : Inv0 st)
    (hg : goodOps0 st ops = true) : Inv0 (runOps0 st ops) := by
  induction ops generalizing st with
  | nil => exact h
  | cons op ops ih =>
      cases op with
      | subscribeOp a r =>
          rw [goodOps0, Bool.and_eq_true] at hg
          exact ih _ (inv0_subscribe a r st h (by simpa using hg.1)) hg.2
      | unsubscribeOp a => exact ih _ (inv0_unsubscribe a st h) hg

lemma inv1_watch (valid : String → Bool) (a : String) (st : Stream1State)
    (h : Inv1 st) :
    Inv1 (match watchAddress valid a st with
      | .ok st1 => st1
      | .error _ => st) := by
  obtain ⟨h1, h2⟩ := h
  unfold watchAddress startPolling1
  by_cases hv : valid a
  · simp only [hv, if_true]
    by_cases hp : st.pollingInterval
    · rw [hp] at h2
      simp at h2
      constructor <;> simp [hp, h2] <;> split <;> simp_all
    · simp only [Bool.not_eq_true] at hp
      rw [hp] at h2
      simp at h2
      constructor <;> simp [hp, h2] <;> split <;> simp_all
  · simp only [Bool.not_eq_true] at hv
    simp [hv]
    exact ⟨h1, h2⟩

lemma inv1_unsubscribe1 (a : String) (st : Stream1State) (h : Inv1 st) :
    Inv1 (unsubscribe1 a st) := by
  obtain ⟨h1, h2⟩ := h
  unfold unsubscribe1 Inv1
  rcases he : st.watchedAddresses.erase a with - | ⟨b, tl⟩
  · by_cases hp : st.pollingInterval
    · rw [hp] at h2
      simp at h2
      simp [hp, h2]
    · simp only [Bool.not_eq_true] at hp
      rw [hp] at h2
      simp at h2
      simp [hp, h2]
  · have hne : st.watchedAddresses ≠ [] := by
      intro hh
      rw [hh] at he
      simp at he
    have h1t : st.pollingInterval = true := by
      rw [h1]
      simpa using hne
    rw [h1t] at h2
    simp at h2
    simp [h1t, h2]

lemma inv1_runOps (valid : String → Bool) (ops : List Op1) (st : Stream1State)
    (h : Inv1 st) : Inv1 (runOps1 valid st ops) := by
  induction ops generalizing st with
  | nil => exact h
  | cons op ops ih =>
      cases op with
      | watchOp a => exact ih _ (inv1_watch valid a st h)
      | unsubscribeOp a => exact ih _ (inv1_unsubscribe1 a st h)

/-- C7 fails as stated: variant-0 `startPolling` unconditionally creates a
new interval timer, and `subscribe` re-starts it whenever the set's size
is 1 after adding — so subscribing the SAME address twice from an empty
registry (size stays 1) starts a second timer and leaks the first. -/
theorem registry_lifecycle_counterexample :
    (subscribe "A" (.ok 0) (subscribe "A" (.ok 0) init0)).liveTimers = 2 ∧
    (subscribe "A" (.ok 0) init0).liveTimers = 1 := by
  constructor <;> rfl

/-- C7 amended (proved): subscribing the first address starts the
scheduler exactly once (one new timer, handle set); unsubscribing the
last address stops it; subscribing a NOT-yet-watched address while the
registry is non-empty starts no timer; along any variant-0 operation
sequence that never re-subscribes an already-watched address, and along
EVERY variant-1 operation sequence (its `watchAddress` checks the handle
and its `startPolling` clears before re-creating), at most one timer is
ever live.  The unamended statement fails only for a duplicate variant-0
`subscribe` of the sole watched address. -/
theorem registry_lifecycle :
    (∀ a r st, st.watchedAddresses = [] →
      (subscribe a r st).pollingInterval = true ∧
      (subscribe a r st).liveTimers = st.liveTimers + 1) ∧
    (∀ a st, Inv0 st → st.watchedAddresses.erase a = [] →
      (unsubscribe a st).pollingInterval = false ∧
      (unsubscribe a st).liveTimers = 0) ∧
    (∀ a r st, st.watchedAddresses ≠ [] → a ∉ st.watchedAddresses →
      (subscribe a r st).pollingInterval = st.pollingInterval ∧
      (subscribe a r st).liveTimers = st.liveTimers) ∧
    (∀ ops, goodOps0 init0 ops = true → (runOps0 init0 ops).liveTimers ≤ 1) ∧
    (∀ valid ops, (runOps1 valid init1 ops).liveTimers ≤ 1) := by
  refine ⟨?_, ?_, ?_, ?_, ?_⟩
  · intro a r st he
    unfold subscribe startPolling0
    simp [he]
  · intro a st hinv he
    obtain ⟨h1, h2⟩ := hinv
    unfold unsubscribe stopPolling0
    rw [he]
    by_cases hp : st.pollingInterval
    · rw [hp] at h2
      simp at h2
      simp [hp, h2]
    · simp only [Bool.not_eq_true] at hp
      rw [hp] at h2
      simp at h2
      simp [hp, h2]
  · intro a r st hne hnew
    unfold subscribe
    simp [if_neg hnew, hne]
  · intro ops hg
    obtain ⟨h1, h2⟩ := inv0_runOps ops init0 ⟨rfl, rfl⟩ hg
    rw [h2]
    split <;> omega
  · intro valid ops
    obtain ⟨h1, h2⟩ := inv1_runOps valid ops init1 ⟨rfl, rfl⟩
    rw [h2]
    split <;> omega

/-- Witness for C7 amended: a concrete subscribe/unsubscribe run of each
kind. -/
theorem registry_lifecycle_witness :
    ((subscribe "A" (.ok 0) init0).pollingInterval = true ∧
      (subscribe "A" (.ok 0) init0).liveTimers = 0 + 1) ∧
    ((unsubscribe "A" (subscribe "A" (.ok 0) init0)).pollingInterval = false ∧
      (unsubscribe "A" (subscribe "A" (.ok 0) init0)).liveTimers = 0) ∧
    ((subscribe "B" (.ok 0) (subscribe "A" (.ok 0) init0)).pollingInterval =
        (subscribe "A" (.ok 0) init0).pollingInterval ∧
      (subscribe "B" (.ok 0) (subscribe "A" (.ok 0) init0)).liveTimers =
        (subscribe "A" (.ok 0) init0).liveTimers) ∧
    (runOps0 init0 [.subscribeOp "A" (.ok 0), .unsubscribeOp "A"]).liveTimers ≤ 1 ∧
    (runOps1 (fun _ => true) init1 [.watchOp "A", .unsubscribeOp "A"]).liveTimers ≤ 1 :=
  ⟨registry_lifecycle.1 "A" (.ok 0) init0 rfl,
    registry_lifecycle.2.1 "A" (subscribe "A" (.ok 0) init0) ⟨rfl, rfl⟩ rfl,
    registry_lifecycle.2.2.1 "B" (.ok 0) (subscribe "A" (.ok 0) init0)
      (by decide) (by decide),
    registry_lifecycle.2.2.2.1 [.subscribeOp "A" (.ok 0), .unsubscribeOp "A"] rfl,
    registry_lifecycle.2.2.2.2 (fun _ => true) [.watchOp "A", .unsubscribeOp "A"]⟩

/-! ### C8: bounded retry -/

lemma runPoll_append (cfg : RetryConfig) (st : PollState) (l1 l2 : List Bool) :
    runPoll cfg st (l1 ++ l2) = runPoll cfg (runPoll cfg st l1) l2 :=
  List.foldl_append _ _ _ _

lemma pollTick_failure_below (cfg : RetryConfig) (j : Nat)
    (hrc : cfg.reconnect = true) (hj : j < cfg.maxReconnectAttempts) :
    pollTick cfg ⟨j, true⟩ false = ⟨j + 1, true⟩ := by
  simp [pollTick, hrc, hj]

lemma runPoll_failures (cfg : RetryConfig) (hrc : cfg.reconnect = true) :
    ∀ k j, j + k ≤ cfg.maxReconnectAttempts →
      runPoll cfg ⟨j, true⟩ (List.replicate k false) = ⟨j + k, true⟩ := by
  intro k
  induction k with
  | zero => intro j h; simp [runPoll]
  | succ k ih =>
      intro j h
      rw [List.replicate_succ]
      show runPoll cfg (pollTick cfg ⟨j, true⟩ false) (List.replicate k false) = _
      rw [pollTick_failure_below cfg j hrc (by omega), ih (j + 1) (by omega)]
      congr 1
      omega

/-- C8 fails as stated: with `maxReconnectAttempts = 2`, two consecutive
tick failures leave the supervisor still polling (it halts only on the
third), and a failure followed by a success leaves the attempt counter at
1 — the code never resets it on success. -/
theorem bounded_retry_counterexample :
    (runPoll ⟨true, 2⟩ ⟨0, true⟩ [false, false]).pollingActive = true ∧
    (runPoll ⟨true, 2⟩ ⟨0, true⟩ [false, false]).reconnectAttempts = 2 ∧
    (runPoll ⟨true, 2⟩ ⟨0, true⟩ [false, true]).reconnectAttempts = 1 := by
  refine ⟨rfl, rfl, rfl⟩

/-- C8 amended (proved): a successful tick changes nothing — in
particular the reconnect counter is NOT reset (only `stop()` resets it);
once the timer is cancelled no tick has any further effect; and starting
from a fresh counter it takes `maxReconnectAttempts + 1` (not
`maxReconnectAttempts`) consecutive tick failures to cancel the timer,
after which the supervisor is halted with the counter stuck at the
maximum. -/
theorem bounded_retry :
    (∀ cfg st, pollTick cfg st true = st) ∧
    (∀ cfg st outcomes, st.pollingActive = false → runPoll cfg st outcomes = st) ∧
    (∀ cfg, cfg.reconnect = true →
      runPoll cfg ⟨0, true⟩ (List.replicate (cfg.maxReconnectAttempts + 1) false) =
        ⟨cfg.maxReconnectAttempts, false⟩) := by
  refine ⟨?_, ?_, ?_⟩
  · intro cfg st
    unfold pollTick
    split
    · rfl
    · rfl
  · intro cfg st outcomes h
    induction outcomes with
    | nil => rfl
    | cons o os ih =>
        have hp : pollTick cfg st o = st := by simp [pollTick, h]
        show runPoll cfg (pollTick cfg st o) os = st
        rw [hp]
        exact ih
  · intro cfg hrc
    rw [List.replicate_succ']
    rw [runPoll_append, runPoll_failures cfg hrc cfg.maxReconnectAttempts 0
      (by omega)]
    simp [runPoll, pollTick, hrc]

/-- Witness for C8 amended at `maxReconnectAttempts = 2`. -/
theorem bounded_retry_witness :
    pollTick ⟨true, 2⟩ ⟨1, true⟩ true = ⟨1, true⟩ ∧
    runPoll ⟨true, 2⟩ ⟨2, false⟩ [false, true, false] = ⟨2, false⟩ ∧
    runPoll ⟨true, 2⟩ ⟨0, true⟩ (List.replicate 3 false) = ⟨2, false⟩ :=
  ⟨bounded_retry.1 ⟨true, 2⟩ ⟨1, true⟩,
    bounded_retry.2.1 ⟨true, 2⟩ ⟨2, false⟩ [false, true, false] rfl,
    bounded_retry.2.2 ⟨true, 2⟩ rfl⟩

/-! ### C9: invalid-address rejection -/

/-- C9 fails as stated: variant-1 `watchAddress` does reject an invalid
address synchronously (here under the validity check `length = 44`,
`"bad"` is rejected), but variant-0 `subscribe` performs no validation at
all — it registers the same invalid string, succeeds, and even starts the
polling timer for it. -/
theorem invalid_address_counterexample :
    watchAddress (fun s => s.length == 44) "bad" init1 = .error () ∧
    (subscribe "bad" (.error ()) init0).watchedAddresses = ["bad"] ∧
    (subscribe "bad" (.error ()) init0).pollingInterval = true := by
  refine ⟨?_, rfl, rfl⟩
  rfl

/-- C9 amended (proved): variant-1 `watchAddress` fails synchronously
with an invalid-address error on every address the validity check
rejects, registering nothing (the state is untouched), and returns a
subscription (an `ok` state containing the address) for every address the
check accepts; variant-0 `subscribe`, by contrast, never validates: it
registers any string whatsoever and always succeeds. -/
theorem invalid_address_rejection :
    (∀ valid a st, valid a = false →
      watchAddress valid a st = .error ()) ∧
    (∀ valid a st, valid a = true →
      ∃ st1, watchAddress valid a st = .ok st1 ∧
        a ∈ st1.watchedAddresses) ∧
    (∀ a r st, a ∈ (subscribe a r st).watchedAddresses) := by
  refine ⟨?_, ?_, ?_⟩
  · intro valid a st h
    unfold watchAddress
    simp [h]
  · intro valid a st h
    unfold watchAddress startPolling1
    simp only [h, if_true]
    refine ⟨_, rfl, ?_⟩
    split <;> (repeat' split) <;> simp_all
  · intro a r st
    unfold subscribe startPolling0
    (repeat' split) <;> simp_all [apply_ite Stream0State.watchedAddresses] <;>
      try (split <;> simp_all)

/-- Witness for C9 amended: `"bad"` rejected and unregistered by
`watchAddress`, a valid address accepted, and `subscribe` registering an
arbitrary string. -/
theorem invalid_address_rejection_witness :
    watchAddress (fun s => s.length == 44) "bad" init1 = .error () ∧
    (∃ st1, watchAddress (fun _ => true) "ok" init1 = .ok st1 ∧
      "ok" ∈ st1.watchedAddresses) ∧
    "bad" ∈ (subscribe "bad" (.error ()) init0).watchedAddresses :=
  ⟨invalid_address_rejection.1 (fun s => s.length == 44) "bad" init1 rfl,
    invalid_address_rejection.2.1 (fun _ => true) "ok" init1 rfl,
    invalid_address_rejection.2.2 "bad" (.error ()) init0⟩
